import Mathlib

/-!
Verification of the Dark photo-booth capture core: a shallow embedding of
the camera backends (`camera_utils/camera_canon.py`, `camera_utils/camera_opencv.py`),
the boomerang arrangement (`camera_manager.py`), and the picture-session tick
handler (`ui.py`), with theorems settling the specification's claims.

Modelling conventions:
* Machine time (`time.time()`) is a natural number supplied by the environment.
* Calls into external libraries (gphoto2, OpenCV) are driven by an explicit
  environment record that decides whether each hardware operation succeeds;
  resource-cleanup calls (`camera.exit()`, `cap.release()`,
  `video_writer.release()` inside `stop`) are modelled as the code treats
  them: any exception that the Python code catches is a Boolean failure knob,
  any call the code performs without a surrounding handler and whose library
  documents it as cleanup is modelled as non-raising.
* Side effects relevant to the claims (process kills, USB resets, back-off
  sleeps, per-attempt device opens) are logged into an explicit event trace.
-/

namespace Dark

/-- Embedding of `CameraManager._arrange_boomerang_frames` (camera_manager.py):
`for i in range(3): sequence = frames if i % 2 == 0 else frames[::-1]; complete_boomerang.extend(sequence)`. -/
def arrange_boomerang_frames {α : Type} (frames : List α) : List α :=
  (List.range 3).foldl (fun acc i => acc ++ (if i % 2 == 0 then frames else frames.reverse)) []

/-- Observable side effects of the Canon backend's recovery machinery. -/
inductive Event where
  /-- `_kill_gphoto2_process()`: terminate the gvfs gphoto2 helper processes. -/
  | killProcs : Event
  /-- one `gp.Camera()` construction plus `camera.init` / configuration attempt,
  tagged with the attempt index. -/
  | gpAttempt (k : Nat) : Event
  /-- `_reset_usb()`: USB port reset addressed at the Canon device entry. -/
  | resetUsb : Event
  /-- `time.sleep(n)` back-off. -/
  | sleep (n : Nat) : Event
deriving DecidableEq, Repr

/-- Hardware/OS environment for the Canon (gphoto2) backend. -/
structure CanonEnv where
  /-- whether `camera.init` plus the capture-target configuration succeed on
  attempt `k` of the retry loop. -/
  attemptOk : Nat → Bool
  /-- whether the `get_config`/`set movie=1`/`set_config` sequence of
  `start_video_recording` succeeds. -/
  startOk : Bool
  /-- whether the `get_config`/`set movie=0`/`set_config` and the storage
  enumeration of `stop_video_recording` succeed. -/
  stopCfgOk : Bool
  /-- the file names returned by `camera.folder_list_files('/')`. -/
  folderFiles : List String
  /-- whether `camera.file_get` plus `camera_file.save` succeed. -/
  downloadOk : Bool
  /-- current value of `time.time()`. -/
  now : Nat

/-- Mutable state of a `CanonCamera` instance.  `camera` holds the handle of the
most recently constructed `gp.Camera()` object (`none` = Python `None`); `gen`
is the next fresh handle, so distinct constructions are distinguishable. -/
structure CanonState where
  camera : Option Nat
  gen : Nat
  inited : Bool
  recording : Bool
  videoStartTime : Option Nat
deriving DecidableEq, Repr

/-- A freshly constructed `CanonCamera` (its `__init__`). -/
def CanonState.fresh : CanonState :=
  { camera := none, gen := 0, inited := false, recording := false, videoStartTime := none }

/-- The `for attempt in range(max_retries)` loop of `CanonCamera.initialize`,
over the list of remaining attempt indices.  Each attempt constructs a fresh
`gp.Camera()` (replacing `self.camera`) and calls `init`; on failure with
attempts remaining it runs `_reset_usb()` and `time.sleep(2)`; failure on the
last attempt re-raises, and the outer handler sets `_initialized = False`. -/
def canonInitLoop (env : CanonEnv) : CanonState → List Nat → CanonState × Bool × List Event
  | s, [] => (s, false, [])
  | s, k :: rest =>
    let s1 : CanonState := { s with camera := some s.gen, gen := s.gen + 1 }
    if env.attemptOk k then
      ({ s1 with inited := true }, true, [Event.gpAttempt k])
    else
      if rest.isEmpty then
        ({ s1 with inited := false }, false, [Event.gpAttempt k])
      else
        let r := canonInitLoop env s1 rest
        (r.1, r.2.1, Event.gpAttempt k :: Event.resetUsb :: Event.sleep 2 :: r.2.2)

/-- Embedding of `CanonCamera.initialize`: kill the helper processes once, then
run the 3-attempt loop.  Returns the new state, the Boolean result, and the
event trace. -/
def canonInit (env : CanonEnv) (s : CanonState) : CanonState × Bool × List Event :=
  let r := canonInitLoop env s [0, 1, 2]
  (r.1, r.2.1, Event.killProcs :: r.2.2)

/-- Embedding of `CanonCamera.start_video_recording`: no already-recording
guard; on success sets `_recording = True` and re-stamps `video_start_time`;
any exception (including `self.camera` being `None`) yields `False` with the
state unchanged. -/
def canonStartVideoRecording (env : CanonEnv) (s : CanonState) : CanonState × Bool :=
  if s.camera.isSome && env.startOk then
    ({ s with recording := true, videoStartTime := some env.now }, true)
  else
    (s, false)

/-- Filter used on the device's file listing:
`f.lower().endswith(('.mp4', '.mov'))`. -/
def isVideoFile (f : String) : Bool :=
  f.toLower.endsWith ".mp4" || f.toLower.endsWith ".mov"

/-- Embedding of `CanonCamera.stop_video_recording`: early `None` when not
recording; otherwise clear the movie flag, settle, enumerate the storage for
video files, download the latest (`video_files[-1]`) to `./videos/`; every
path after the guard — success, no matching file, or a caught exception —
ends with `_recording = False`, and only the success path returns a path. -/
def canonStopVideoRecording (env : CanonEnv) (s : CanonState) : CanonState × Option String :=
  if s.recording = false then
    (s, none)
  else if env.stopCfgOk && s.camera.isSome then
    match (env.folderFiles.filter isVideoFile).getLast? with
    | some latest =>
      if env.downloadOk then
        ({ s with recording := false }, some ("./videos/" ++ latest))
      else
        ({ s with recording := false }, none)
    | none => ({ s with recording := false }, none)
  else
    ({ s with recording := false }, none)

/-- Embedding of `CanonCamera.is_recording`. -/
def canonIsRecording (s : CanonState) : Bool := s.recording

/-- Embedding of `CanonCamera.is_initialized`. -/
def canonIsInited (s : CanonState) : Bool := s.inited

/-- Embedding of `CanonCamera.release`: stop any active recording, then
`camera.exit()`, `camera = None`, `_initialized = False` — all guarded by
`if self.camera`. -/
def canonRelease (env : CanonEnv) (s : CanonState) : CanonState :=
  let s1 := if s.recording then (canonStopVideoRecording env s).1 else s
  if s1.camera.isSome then
    { s1 with camera := none, inited := false }
  else
    s1

/-- `n` successive calls to `CanonCamera.release`. -/
def canonReleaseN (env : CanonEnv) : Nat → CanonState → CanonState
  | 0, s => s
  | n + 1, s => canonReleaseN env n (canonRelease env s)

/-- Hardware/driver environment for the OpenCV (webcam) backend.  Frames are
opaque values, modelled as naturals. -/
structure CVEnv where
  /-- whether the `cv2.VideoCapture` constructed on attempt `k` of the retry
  loop reports `isOpened()`. -/
  openOk : Nat → Bool
  /-- result of `self.cap.read()`: `some f` for `(True, f)`, `none` for a
  failed read. -/
  readResult : Option Nat
  /-- whether the property reads and the `cv2.VideoWriter` construction in
  `start_video_recording` succeed. -/
  writerOk : Bool
  /-- whether `self.video_writer.release()` inside `stop_video_recording`
  succeeds. -/
  releaseOk : Bool
  /-- the `time.strftime` timestamp used in the output file name. -/
  pathTs : String
  /-- current value of `time.time()`. -/
  now : Nat

/-- Mutable state of an `OpenCVCamera` instance.  `cap` holds the handle of the
most recently constructed `cv2.VideoCapture` together with its `isOpened()`
status; `videoWriter` models the open output stream as the list of frames
written to it so far. -/
structure CVState where
  cap : Option (Nat × Bool)
  gen : Nat
  recording : Bool
  videoWriter : Option (List Nat)
  videoPath : Option String
  videoStartTime : Option Nat
deriving DecidableEq, Repr

/-- A freshly constructed `OpenCVCamera` (its `__init__`). -/
def CVState.fresh : CVState :=
  { cap := none, gen := 0, recording := false, videoWriter := none,
    videoPath := none, videoStartTime := none }

/-- Embedding of `OpenCVCamera.is_initialized`:
`self.cap is not None and self.cap.isOpened()`. -/
def cvIsInited (s : CVState) : Bool :=
  match s.cap with
  | some (_, opened) => opened
  | none => false

/-- The `for retry_count in range(max_retries)` loop of
`OpenCVCamera.initialize`: each attempt constructs a fresh `cv2.VideoCapture`
(replacing `self.cap`); if it opened, the resolution/fps properties are set and
the call returns `True`, otherwise the loop sleeps and retries. -/
def cvInitLoop (env : CVEnv) : CVState → List Nat → CVState × Bool
  | s, [] => (s, false)
  | s, k :: rest =>
    let s1 : CVState := { s with cap := some (s.gen, env.openOk k), gen := s.gen + 1 }
    if env.openOk k then (s1, true)
    else cvInitLoop env s1 rest

/-- Embedding of `OpenCVCamera.initialize`: the 3-attempt open loop. -/
def cvInit (env : CVEnv) (s : CVState) : CVState × Bool :=
  cvInitLoop env s [0, 1, 2]

/-- Embedding of `OpenCVCamera.capture_frame`: guard on `is_initialized`, read
a frame, and — when `ret and self._recording and self.video_writer` — append
it to the open output stream. -/
def cvCaptureFrame (env : CVEnv) (s : CVState) : CVState × Bool × Option Nat :=
  if cvIsInited s = false then
    (s, false, none)
  else
    match env.readResult with
    | none => (s, false, none)
    | some f =>
      match s.recording, s.videoWriter with
      | true, some buf => ({ s with videoWriter := some (buf ++ [f]) }, true, some f)
      | _, _ => (s, true, some f)

/-- Embedding of `OpenCVCamera.start_video_recording`: fails on the
`not self.is_initialized() or self._recording` guard; otherwise stamps the
output path, opens the writer, sets `_recording` and `video_start_time`.  A
writer-construction failure is caught after the path was already assigned. -/
def cvStartVideoRecording (env : CVEnv) (s : CVState) : CVState × Bool :=
  if cvIsInited s = false || s.recording then
    (s, false)
  else
    let path := "./videos/opencv_video_" ++ env.pathTs ++ ".mp4"
    if env.writerOk then
      ({ s with videoPath := some path, videoWriter := some [], recording := true,
                videoStartTime := some env.now }, true)
    else
      ({ s with videoPath := some path }, false)

/-- Embedding of `OpenCVCamera.stop_video_recording`: `None` on the
`not self._recording or self.video_writer is None` guard; otherwise release
the writer, clear the state, and return `self.video_path`; a caught exception
from the writer release returns `None` leaving the fields as they were. -/
def cvStopVideoRecording (env : CVEnv) (s : CVState) : CVState × Option String :=
  if s.recording = false || s.videoWriter.isNone then
    (s, none)
  else if env.releaseOk then
    ({ s with videoWriter := none, recording := false }, s.videoPath)
  else
    (s, none)

/-- Embedding of `OpenCVCamera.is_recording`. -/
def cvIsRecording (s : CVState) : Bool := s.recording

/-- Embedding of `OpenCVCamera.release`: stop any active recording, then
release and clear `self.cap` if present. -/
def cvRelease (env : CVEnv) (s : CVState) : CVState :=
  let s1 := if s.recording then (cvStopVideoRecording env s).1 else s
  if s1.cap.isSome then { s1 with cap := none } else s1

/-- `n` successive calls to `OpenCVCamera.release`. -/
def cvReleaseN (env : CVEnv) : Nat → CVState → CVState
  | 0, s => s
  | n + 1, s => cvReleaseN env n (cvRelease env s)

/-- One tick of the preview loop during a Picture session: the current
`time.time()` and the result of `self.camera.capture_picture()` (`some f` for
a returned camera file, `none` when capture failed and returned `None`). -/
structure Tick where
  t : Nat
  shot : Option Nat
deriving DecidableEq, Repr

/-- The capture block of `UserInterface._handle_picture_capture`: when
`current_time - self.timer_start > 3`, a still capture is attempted and, if it
yields a file, it overwrites `self.last_picture_frame`.  The committed frame
is recorded together with its capture time. -/
def picTick (start : Nat) (last : Option (Nat × Nat)) (tk : Tick) : Option (Nat × Nat) :=
  if tk.t - start > 3 then
    match tk.shot with
    | some f => some (tk.t, f)
    | none => last
  else
    last

/-- The Picture-session tick loop of `ui.py`: each tick runs the capture block
and then either schedules the next tick (`current_time <= self.timer_end`) or
releases the camera and hands `self.last_picture_frame` to the review page.
`none` means the tick list ran out with the session still ongoing;
`some artifact` means the session terminated by calling
`review_page(artifact)`, where the artifact is `none` exactly when
`last_picture_frame` was still `None`. -/
def picSession (start tEnd : Nat) : Option (Nat × Nat) → List Tick → Option (Option (Nat × Nat))
  | _, [] => none
  | last, tk :: rest =>
    let last' := picTick start last tk
    if tk.t ≤ tEnd then picSession start tEnd last' rest
    else some last'

/-! Concrete environment and state fixtures used by the counterexamples and
witnesses below. -/

/-- Canon environment in which every hardware operation succeeds. -/
def cenvAllOkFx : CanonEnv :=
  { attemptOk := fun _ => true, startOk := true, stopCfgOk := true,
    folderFiles := ["IMG_1.JPG", "MVI_2.MOV"], downloadOk := true, now := 9 }

/-- Canon environment in which every `camera.init` attempt fails. -/
def cenvAllFailFx : CanonEnv :=
  { attemptOk := fun _ => false, startOk := true, stopCfgOk := true,
    folderFiles := [], downloadOk := true, now := 0 }

/-- Canon environment in which the stop-side configuration call raises. -/
def cenvStopFailFx : CanonEnv :=
  { attemptOk := fun _ => true, startOk := true, stopCfgOk := false,
    folderFiles := ["MVI_2.MOV"], downloadOk := true, now := 0 }

/-- Webcam environment in which every driver operation succeeds. -/
def venvAllOkFx : CVEnv :=
  { openOk := fun _ => true, readResult := some 42, writerOk := true,
    releaseOk := true, pathTs := "T", now := 9 }

/-- Webcam environment in which every open attempt reports not-opened. -/
def venvAllFailFx : CVEnv :=
  { openOk := fun _ => false, readResult := none, writerOk := true,
    releaseOk := true, pathTs := "T", now := 0 }

/-- A successfully initialized, idle Canon camera. -/
def csInitedFx : CanonState :=
  { camera := some 0, gen := 1, inited := true, recording := false, videoStartTime := none }

/-- A Canon camera with an active recording started at time 5. -/
def csRecFx : CanonState :=
  { camera := some 0, gen := 1, inited := true, recording := true, videoStartTime := some 5 }

/-- A successfully initialized, idle webcam. -/
def vsInitedFx : CVState :=
  { cap := some (0, true), gen := 1, recording := false, videoWriter := none,
    videoPath := none, videoStartTime := none }

/-- A webcam with an active recording whose stream already holds one frame. -/
def vsRecFx : CVState :=
  { cap := some (0, true), gen := 1, recording := true, videoWriter := some [7],
    videoPath := some "./videos/opencv_video_T.mp4", videoStartTime := some 5 }

/-! Theorems. -/

/-- C1: the boomerang arrangement returns exactly `F ++ reverse F ++ F`, of
length `3 * N`, and on `[A, B, C]` yields `[A,B,C,C,B,A,A,B,C]`. -/
theorem boomerang_arrangement_spec {α : Type} (F : List α) (a b c : α) :
    arrange_boomerang_frames F = F ++ F.reverse ++ F ∧
    (arrange_boomerang_frames F).length = 3 * F.length ∧
    arrange_boomerang_frames [a, b, c] = [a, b, c, c, b, a, a, b, c] := by
  have h : ∀ (G : List α), arrange_boomerang_frames G = G ++ (G.reverse ++ G) := by
    intro G
    simp [arrange_boomerang_frames, List.range_succ]
  refine ⟨?_, ?_, ?_⟩
  · rw [h, List.append_assoc]
  · rw [h]
    simp
    omega
  · rw [h]
    simp

/-- Stopping a recording never touches the gphoto2 handle, the initialization
flag, or the handle generation counter. -/
theorem canonStop_preserves_core (env : CanonEnv) (s : CanonState) :
    ((canonStopVideoRecording env s).1).camera = s.camera ∧
    ((canonStopVideoRecording env s).1).inited = s.inited ∧
    ((canonStopVideoRecording env s).1).gen = s.gen := by
  unfold canonStopVideoRecording
  split
  · exact ⟨rfl, rfl, rfl⟩
  · split
    · split
      · split <;> exact ⟨rfl, rfl, rfl⟩
      · exact ⟨rfl, rfl, rfl⟩
    · exact ⟨rfl, rfl, rfl⟩

/-- C10: every path through `CanonCamera.stop_video_recording` — not-recording
guard, success, no matching file, or a caught exception from the device-side
stop or the download — leaves `is_recording()` false, and the exception paths
return `None` instead of propagating. -/
theorem canon_stop_always_clears_recording (env : CanonEnv) (s : CanonState) :
    canonIsRecording (canonStopVideoRecording env s).1 = false ∧
    (env.stopCfgOk = false → (canonStopVideoRecording env s).2 = none) ∧
    (env.downloadOk = false → (canonStopVideoRecording env s).2 = none) := by
  unfold canonIsRecording canonStopVideoRecording
  refine ⟨?_, ?_, ?_⟩
  · split
    · simpa using ‹s.recording = false›
    · split
      · split
        · split <;> rfl
        · rfl
      · rfl
  · intro hcfg
    split
    · rfl
    · split
      · rename_i hand
        rw [hcfg] at hand
        simp at hand
      · rfl
  · intro hdl
    split
    · rfl
    · split
      · split
        · rw [hdl]
          simp
        · rfl
      · rfl

/-- C10 witness: with the device-side stop raising, a recording camera ends up
not recording and the call returns `None`. -/
theorem canon_stop_clears_witness :
    canonIsRecording (canonStopVideoRecording cenvStopFailFx csRecFx).1 = false ∧
    (canonStopVideoRecording cenvStopFailFx csRecFx).2 = none :=
  ⟨(canon_stop_always_clears_recording cenvStopFailFx csRecFx).1,
   (canon_stop_always_clears_recording cenvStopFailFx csRecFx).2.1 rfl⟩

/-- C8 counterexample: with all three init attempts failing, the full event
trace of `CanonCamera.initialize` contains the helper-process kill exactly
once, *before* the first attempt; nothing after the kill (in particular,
nothing between a failed attempt and its retry) terminates helper processes. -/
theorem canon_init_kill_once_cex :
    (canonInit cenvAllFailFx CanonState.fresh).2.2 =
      [Event.killProcs, Event.gpAttempt 0, Event.resetUsb, Event.sleep 2,
       Event.gpAttempt 1, Event.resetUsb, Event.sleep 2, Event.gpAttempt 2] ∧
    Event.killProcs ∉ ((canonInit cenvAllFailFx CanonState.fresh).2.2).drop 1 := by
  decide

/-- C8 amended: `CanonCamera.initialize` performs at most 3 attempts; it
terminates the OS-level helper processes exactly once, before the first
attempt; between every failed attempt and the next retry it issues a USB reset
followed by a fixed 2-second back-off — the kill step is not repeated between
attempts. -/
theorem canon_init_trace_shape (env : CanonEnv) (s : CanonState) :
    (canonInit env s).2.2 =
      Event.killProcs ::
        (if env.attemptOk 0 then [Event.gpAttempt 0]
         else Event.gpAttempt 0 :: Event.resetUsb :: Event.sleep 2 ::
           (if env.attemptOk 1 then [Event.gpAttempt 1]
            else Event.gpAttempt 1 :: Event.resetUsb :: Event.sleep 2 ::
              [Event.gpAttempt 2])) := by
  cases h0 : env.attemptOk 0 <;> cases h1 : env.attemptOk 1 <;> cases h2 : env.attemptOk 2 <;>
    simp [canonInit, canonInitLoop, h0, h1, h2]

/-- C6: with a transport failure on all three attempts, both backends'
`initialize` returns a failure result and leaves `is_initialized()` false. -/
theorem init_exhaustion_clean_failure (cenv : CanonEnv) (venv : CVEnv)
    (cs : CanonState) (vs : CVState)
    (h0 : cenv.attemptOk 0 = false) (h1 : cenv.attemptOk 1 = false)
    (h2 : cenv.attemptOk 2 = false)
    (g0 : venv.openOk 0 = false) (g1 : venv.openOk 1 = false)
    (g2 : venv.openOk 2 = false) :
    (canonInit cenv cs).2.1 = false ∧ canonIsInited (canonInit cenv cs).1 = false ∧
    (cvInit venv vs).2 = false ∧ cvIsInited (cvInit venv vs).1 = false := by
  refine ⟨?_, ?_, ?_, ?_⟩ <;>
    simp [canonInit, canonInitLoop, canonIsInited, cvInit, cvInitLoop, cvIsInited,
      h0, h1, h2, g0, g1, g2]

/-- C6 witness: the exhaustion result at the all-fail environments from fresh
camera states. -/
theorem init_exhaustion_witness :
    (canonInit cenvAllFailFx CanonState.fresh).2.1 = false ∧
    canonIsInited (canonInit cenvAllFailFx CanonState.fresh).1 = false ∧
    (cvInit venvAllFailFx CVState.fresh).2 = false ∧
    cvIsInited (cvInit venvAllFailFx CVState.fresh).1 = false :=
  init_exhaustion_clean_failure cenvAllFailFx venvAllFailFx CanonState.fresh CVState.fresh
    rfl rfl rfl rfl rfl rfl

/-- C3 counterexample: calling `initialize` on an already-initialized Canon
camera is not a no-op — it performs side effects (the helper-process kill and
a fresh `gp.Camera()` init attempt) and replaces the device handle, so the
state changes. -/
theorem reinit_not_noop_cex :
    (canonInit cenvAllOkFx csInitedFx).1 ≠ csInitedFx ∧
    (canonInit cenvAllOkFx csInitedFx).2.2 = [Event.killProcs, Event.gpAttempt 0] ∧
    (canonInit cenvAllOkFx csInitedFx).1.camera = some 1 ∧
    csInitedFx.camera = some 0 := by
  decide

/-- C3 amended: on both backends, calling `initialize` while already
initialized re-executes the full initialization procedure instead of being a
no-op: it re-opens the device, replacing the handle with a fresh one, and
returns success when the first attempt succeeds. -/
theorem reinit_reruns_procedure (cenv : CanonEnv) (venv : CVEnv)
    (cs : CanonState) (vs : CVState)
    (_hc : canonIsInited cs = true) (_hv : cvIsInited vs = true)
    (hok : cenv.attemptOk 0 = true) (gok : venv.openOk 0 = true) :
    canonInit cenv cs =
      ({ cs with camera := some cs.gen, gen := cs.gen + 1, inited := true }, true,
        [Event.killProcs, Event.gpAttempt 0]) ∧
    cvInit venv vs = ({ vs with cap := some (vs.gen, true), gen := vs.gen + 1 }, true) := by
  constructor
  · simp [canonInit, canonInitLoop, hok]
  · simp [cvInit, cvInitLoop, gok]

/-- C3 witness: re-initialization of concrete already-initialized backends. -/
theorem reinit_reruns_procedure_witness :
    canonInit cenvAllOkFx csInitedFx =
      ({ csInitedFx with camera := some 1, gen := 2, inited := true }, true,
        [Event.killProcs, Event.gpAttempt 0]) ∧
    cvInit venvAllOkFx vsInitedFx =
      ({ vsInitedFx with cap := some (1, true), gen := 2 }, true) :=
  reinit_reruns_procedure cenvAllOkFx venvAllOkFx csInitedFx vsInitedFx rfl rfl rfl rfl

/-- C4 counterexample: the Canon backend's `start_video_recording`, called
while a recording started at time 5 is active, returns success and re-stamps
the start time to the current time 9 — it neither fails nor preserves the
original timing. -/
theorem canon_start_while_recording_cex :
    canonIsRecording csRecFx = true ∧
    (canonStartVideoRecording cenvAllOkFx csRecFx).2 = true ∧
    (canonStartVideoRecording cenvAllOkFx csRecFx).1.videoStartTime = some 9 ∧
    csRecFx.videoStartTime = some 5 := by
  decide

/-- C4 amended: the webcam backend rejects `start_recording` while recording
and leaves its state unchanged, but the DSLR backend has no already-recording
guard: when the device accepts the configuration change it returns success and
re-stamps the recording start time. -/
theorem start_recording_guard_asymmetry (venv : CVEnv) (cenv : CanonEnv)
    (vs : CVState) (cs : CanonState)
    (hv : cvIsRecording vs = true) (_hc : canonIsRecording cs = true)
    (hcam : cs.camera.isSome = true) (hok : cenv.startOk = true) :
    cvStartVideoRecording venv vs = (vs, false) ∧
    (canonStartVideoRecording cenv cs).2 = true ∧
    (canonStartVideoRecording cenv cs).1.videoStartTime = some cenv.now := by
  have hv' : vs.recording = true := hv
  refine ⟨?_, ?_, ?_⟩ <;>
    simp [cvStartVideoRecording, canonStartVideoRecording, hv', hcam, hok]

/-- C4 witness: the guard asymmetry at concrete recording states. -/
theorem start_recording_guard_witness :
    cvStartVideoRecording venvAllOkFx vsRecFx = (vsRecFx, false) ∧
    (canonStartVideoRecording cenvAllOkFx csRecFx).2 = true ∧
    (canonStartVideoRecording cenvAllOkFx csRecFx).1.videoStartTime = some 9 :=
  start_recording_guard_asymmetry venvAllOkFx cenvAllOkFx vsRecFx csRecFx rfl rfl rfl rfl

/-- One `CanonCamera.release` call on a state satisfying the constructor
invariant (initialized only with a live handle) clears both the handle and the
initialization flag. -/
theorem canonRelease_clears (env : CanonEnv) (s : CanonState)
    (hinv : s.inited = true → s.camera.isSome) :
    (canonRelease env s).camera = none ∧ (canonRelease env s).inited = false := by
  unfold canonRelease
  have hp := canonStop_preserves_core env s
  cases hcam : s.camera with
  | some h =>
    split <;> simp_all
  | none =>
    have hin : s.inited = false := by
      cases hini : s.inited
      · rfl
      · have := hinv hini
        rw [hcam] at this
        simp at this
    split <;> simp_all

/-- Further `CanonCamera.release` calls keep the handle `None` and the
initialization flag false. -/
theorem canonReleaseN_stable (env : CanonEnv) :
    ∀ (n : Nat) (s : CanonState), s.camera = none → s.inited = false →
      (canonReleaseN env n s).camera = none ∧ (canonReleaseN env n s).inited = false := by
  intro n
  induction n with
  | zero => intro s h1 h2; exact ⟨h1, h2⟩
  | succ m ih =>
    intro s h1 h2
    have hr := canonRelease_clears env s (by rw [h2]; intro h; cases h)
    exact ih (canonRelease env s) hr.1 hr.2

/-- One `OpenCVCamera.release` call always leaves `self.cap` cleared. -/
theorem cvRelease_cap_none (env : CVEnv) (s : CVState) :
    (cvRelease env s).cap = none := by
  unfold cvRelease
  have hp : ((cvStopVideoRecording env s).1).cap = s.cap := by
    unfold cvStopVideoRecording
    split
    · rfl
    · split <;> rfl
  cases hcam : s.cap with
  | some p => split <;> simp_all
  | none => split <;> simp_all

/-- Further `OpenCVCamera.release` calls keep `self.cap` cleared. -/
theorem cvReleaseN_stable (env : CVEnv) :
    ∀ (n : Nat) (s : CVState), s.cap = none → (cvReleaseN env n s).cap = none := by
  intro n
  induction n with
  | zero => intro s h; exact h
  | succ m ih => intro s _; exact ih (cvRelease env s) (cvRelease_cap_none env s)

/-- C5: on both backends, any number `n ≥ 1` of `release()` calls — from any
state reachable from the constructor, including before `initialize()` and
while a recording is active (the stop routine is invoked first and never
raises) — completes without error and leaves `is_initialized()` false. -/
theorem release_any_times_safe (cenv : CanonEnv) (venv : CVEnv)
    (cs : CanonState) (vs : CVState) (n : Nat) (hn : 1 ≤ n)
    (hinv : cs.inited = true → cs.camera.isSome) :
    canonIsInited (canonReleaseN cenv n cs) = false ∧
    cvIsInited (cvReleaseN venv n vs) = false := by
  obtain ⟨m, rfl⟩ : ∃ m, n = m + 1 := ⟨n - 1, by omega⟩
  constructor
  · have hr := canonRelease_clears cenv cs hinv
    have := canonReleaseN_stable cenv m (canonRelease cenv cs) hr.1 hr.2
    exact this.2
  · have := cvReleaseN_stable venv m (cvRelease venv vs) (cvRelease_cap_none venv vs)
    show cvIsInited (cvReleaseN venv m (cvRelease venv vs)) = false
    unfold cvIsInited
    rw [this]

/-- C5 witness: three releases of a recording Canon camera and of a
never-initialized webcam, both ending not-initialized. -/
theorem release_any_times_safe_witness :
    canonIsInited (canonReleaseN cenvAllOkFx 3 csRecFx) = false ∧
    cvIsInited (cvReleaseN venvAllOkFx 3 CVState.fresh) = false :=
  release_any_times_safe cenvAllOkFx venvAllOkFx csRecFx CVState.fresh 3 (by decide)
    (fun _ => by decide)

/-- C7 counterexample: a zero-data webcam recording — started successfully (the
stream buffer is empty) and stopped immediately — returns the output path, not
`None`. -/
theorem cv_stop_zero_data_returns_path_cex :
    ((cvStartVideoRecording venvAllOkFx vsInitedFx).1).videoWriter = some [] ∧
    (cvStopVideoRecording venvAllOkFx (cvStartVideoRecording venvAllOkFx vsInitedFx).1).2 =
      some "./videos/opencv_video_T.mp4" := by
  constructor
  · rfl
  · rfl

/-- C7 amended: on both backends `stop_recording` without a prior start returns
`None` and never errors, and the DSLR backend returns `None` on a zero-data
recording; the webcam backend, however, returns the output path whenever a
recording was active, even if zero frames were appended to the stream. -/
theorem stop_recording_result_policy (cenv : CanonEnv) (venv : CVEnv)
    (cs csr : CanonState) (vs vsr : CVState) (buf : List Nat)
    (hc : canonIsRecording cs = false) (hv : cvIsRecording vs = false)
    (hcr : canonIsRecording csr = true)
    (hnof : cenv.folderFiles.filter isVideoFile = [])
    (hvr : cvIsRecording vsr = true) (hw : vsr.videoWriter = some buf)
    (hrel : venv.releaseOk = true) :
    canonStopVideoRecording cenv cs = (cs, none) ∧
    cvStopVideoRecording venv vs = (vs, none) ∧
    (canonStopVideoRecording cenv csr).2 = none ∧
    (cvStopVideoRecording venv vsr).2 = vsr.videoPath := by
  have hc' : cs.recording = false := hc
  have hv' : vs.recording = false := hv
  have hcr' : csr.recording = true := hcr
  have hvr' : vsr.recording = true := hvr
  refine ⟨?_, ?_, ?_, ?_⟩
  · simp [canonStopVideoRecording, hc']
  · simp [cvStopVideoRecording, hv']
  · simp [canonStopVideoRecording, hcr', hnof]
  · simp [cvStopVideoRecording, hvr', hw, hrel]

/-- C7 witness: the four stop-result policies at concrete states. -/
theorem stop_recording_result_witness :
    canonStopVideoRecording cenvAllFailFx csInitedFx = (csInitedFx, none) ∧
    cvStopVideoRecording venvAllOkFx vsInitedFx = (vsInitedFx, none) ∧
    (canonStopVideoRecording cenvAllFailFx csRecFx).2 = none ∧
    (cvStopVideoRecording venvAllOkFx vsRecFx).2 = vsRecFx.videoPath :=
  stop_recording_result_policy cenvAllFailFx venvAllOkFx csInitedFx csRecFx vsInitedFx vsRecFx
    [7] rfl rfl rfl rfl rfl rfl rfl

/-- C9: while the webcam is recording, every successful `capture_frame` appends
the captured frame to the open output stream and returns it; while not
recording, `capture_frame` leaves the stream and the recording state (the
whole camera state) unchanged; `stop_recording` closes the stream and returns
its path. -/
theorem cv_capture_recording_side_effect (env env2 : CVEnv) (s s2 : CVState)
    (buf : List Nat) (f : Nat)
    (hinit : cvIsInited s = true) (hrec : cvIsRecording s = true)
    (hw : s.videoWriter = some buf) (hread : env.readResult = some f)
    (hrel : env.releaseOk = true) (h2 : cvIsRecording s2 = false) :
    cvCaptureFrame env s = ({ s with videoWriter := some (buf ++ [f]) }, true, some f) ∧
    (cvCaptureFrame env2 s2).1 = s2 ∧
    cvStopVideoRecording env s = ({ s with videoWriter := none, recording := false },
      s.videoPath) := by
  have hrec' : s.recording = true := hrec
  have h2' : s2.recording = false := h2
  refine ⟨?_, ?_, ?_⟩
  · simp [cvCaptureFrame, hinit, hread, hrec', hw]
  · unfold cvCaptureFrame
    split
    · rfl
    · cases hr : env2.readResult with
      | none => rfl
      | some g => simp [h2']
  · simp [cvStopVideoRecording, hrec', hw, hrel]

/-- C9 witness: the stream side effect at a concrete recording webcam state. -/
theorem cv_capture_recording_witness :
    cvCaptureFrame venvAllOkFx vsRecFx =
      ({ vsRecFx with videoWriter := some [7, 42] }, true, some 42) ∧
    (cvCaptureFrame venvAllOkFx vsInitedFx).1 = vsInitedFx ∧
    cvStopVideoRecording venvAllOkFx vsRecFx =
      ({ vsRecFx with videoWriter := none, recording := false }, vsRecFx.videoPath) :=
  cv_capture_recording_side_effect venvAllOkFx venvAllOkFx vsRecFx vsInitedFx [7] 42
    rfl rfl rfl rfl rfl rfl

/-- The capture block preserves the bound "every committed frame was captured
strictly after the 3-second lead-in". -/
theorem picTick_commit_time (start : Nat) (last : Option (Nat × Nat)) (tk : Tick)
    (h : ∀ t f, last = some (t, f) → start + 3 < t) :
    ∀ t f, picTick start last tk = some (t, f) → start + 3 < t := by
  intro t f
  unfold picTick
  split
  · rename_i hlead
    cases hs : tk.shot with
    | some g =>
      intro he
      simp at he
      omega
    | none => exact h t f
  · exact h t f

/-- The tick loop only terminates with a committed frame captured strictly
after the lead-in, provided the accumulator already satisfies that bound. -/
theorem picSession_commit_time (start tEnd : Nat) :
    ∀ (ticks : List Tick) (last : Option (Nat × Nat)),
      (∀ t f, last = some (t, f) → start + 3 < t) →
      ∀ t f, picSession start tEnd last ticks = some (some (t, f)) → start + 3 < t := by
  intro ticks
  induction ticks with
  | nil =>
    intro last _ t f he
    simp [picSession] at he
  | cons tk rest ih =>
    intro last hlast t f
    unfold picSession
    split
    · exact ih (picTick start last tk) (picTick_commit_time start last tk hlast) t f
    · intro he
      simp at he
      exact picTick_commit_time start last tk hlast t f he

/-- A tick whose still capture failed commits nothing. -/
theorem picTick_none (start : Nat) (tk : Tick) (hs : tk.shot = none) :
    picTick start none tk = none := by
  unfold picTick
  rw [hs]
  split <;> rfl

/-- With every still capture failing, the tick loop can only terminate by
handing the empty artifact to review. -/
theorem picSession_all_failed (start tEnd : Nat) :
    ∀ (ticks : List Tick), (∀ tk ∈ ticks, tk.shot = none) →
      ∀ p, picSession start tEnd none ticks ≠ some (some p) := by
  intro ticks
  induction ticks with
  | nil =>
    intro _ p he
    simp [picSession] at he
  | cons tk rest ih =>
    intro hall p
    unfold picSession
    rw [picTick_none start tk (hall tk (by simp))]
    split
    · exact ih (fun u hu => hall u (by simp [hu])) p
    · intro he
      simp at he

/-- C2 counterexample: a Picture session in which the still capture fails on
every post-lead-in tick terminates by handing the empty (`None`) artifact to
the review page — a silent empty result, not a `NotInitialized` /
`TransportFailure` capture error. -/
theorem pic_session_silent_empty_cex :
    picSession 0 3 none [⟨5, none⟩] = some none := by
  decide

/-- C2 amended: the final artifact handed to review by a Picture session is a
frame captured strictly after the 3-second lead-in (no pre-lead-in frame is
ever committed); but a session with zero valid frames after the lead-in
terminates by handing the empty artifact to review — it never surfaces a
capture error. -/
theorem pic_session_leadin_and_empty_result :
    (∀ (start tEnd : Nat) (ticks : List Tick) (t f : Nat),
      picSession start tEnd none ticks = some (some (t, f)) → start + 3 < t) ∧
    (∀ (start tEnd : Nat) (ticks : List Tick), (∀ tk ∈ ticks, tk.shot = none) →
      ∀ p, picSession start tEnd none ticks ≠ some (some p)) := by
  constructor
  · intro start tEnd ticks t f
    exact picSession_commit_time start tEnd ticks none (by intro t f h; cases h) t f
  · intro start tEnd ticks hall
    exact picSession_all_failed start tEnd ticks hall

/-- C2 witness: a concrete session committing the frame captured at time 4
(after the lead-in ending at time 3) and the resulting lower bound. -/
theorem pic_session_leadin_witness :
    picSession 0 3 none [⟨4, some 7⟩] = some (some (4, 7)) ∧ 0 + 3 < 4 :=
  ⟨by decide,
   pic_session_leadin_and_empty_result.1 0 3 [⟨4, some 7⟩] 4 7 (by decide)⟩

end Dark
